import Mathlib

/-!
# gohelix — verification of the participant / spectator core

Shallow embedding of the gohelix client library (Go).  The coordinator
(ZooKeeper) is modelled as an association list from znode paths to records;
the record codec is modelled as the identity on `Record` (the spec's
round-trip law `decode(encode(r)) == r`), so connection-level helpers
operate on `Record` values directly.  Failure (a Go `panic` via `must`, or
an operation that can never return, such as the infinite retry loop on a
missing node) is modelled by `Option`/`none`.

The files `record.go` and `statemodel.go` of the repository are not part of
the provided sources (only their callers are); `Record`, `StateModel` and
the live-instance node are modelled from the spec, as marked on each
definition.  Everything else is translated from the Go sources
(`participant.go` including the connection code, the spectator file, and
the key-builder file).
-/

namespace Gohelix

/-- Modelled from the spec: `record.go` is missing from the sources.
Spec §3: a record has an `id`, `simpleFields` (scalar values encoded as
strings), `listFields` and `mapFields` (`name → (string → string)`).
Go maps are modelled as association lists. -/
structure Record where
  id : String
  simpleFields : List (String × String)
  listFields : List (String × List String)
  mapFields : List (String × List (String × String))
deriving DecidableEq, Repr

/-- Upsert into an association list: replace the first binding of the key,
or append a new binding at the end (insertion order, as observed through
lookups, matches a Go map). -/
def assocSet {β : Type} : List (String × β) → String → β → List (String × β)
  | [], k, v => [(k, v)]
  | (k', v') :: t, k, v => if k' = k then (k, v) :: t else (k', v') :: assocSet t k v

/-- Lookup in an association list (first binding wins). -/
def assocGet {β : Type} : List (String × β) → String → Option β
  | [], _ => none
  | (k', v') :: t, k => if k' = k then some v' else assocGet t k

/-- Remove all bindings of a key from an association list. -/
def assocRemove {β : Type} (l : List (String × β)) (k : String) : List (String × β) :=
  l.filter (fun kv => kv.1 ≠ k)

/-- `strings.HasPrefix pre s` via the character lists (kernel-reducible,
unlike the byte-position based core `String` functions). -/
def strHasPre (pre s : String) : Bool :=
  pre.data.isPrefixOf s.data

/-- Drop the first `n` characters of a string. -/
def strDropLen (s : String) (n : Nat) : String :=
  String.mk (s.data.drop n)

/-- Whether a string contains a path separator. -/
def strHasSlash (s : String) : Bool :=
  s.data.contains '/'

/-- Modelled from the spec: `NewRecord(id)` creates an empty record. -/
def NewRecord (id : String) : Record :=
  { id := id, simpleFields := [], listFields := [], mapFields := [] }

/-- Modelled from the spec: `GetSimpleField` returns the scalar field, or
`nil` (here `none`) when absent. -/
def Record.GetSimpleField (r : Record) (k : String) : Option String :=
  assocGet r.simpleFields k

/-- Modelled from the spec: `SetSimpleField` upserts a scalar field. -/
def Record.SetSimpleField (r : Record) (k v : String) : Record :=
  { r with simpleFields := assocSet r.simpleFields k v }

/-- Modelled from the spec: `GetIntField(key, default)` parses the scalar
field as an integer, falling back to the default. -/
def Record.GetIntField (r : Record) (k : String) (d : Int) : Int :=
  match r.GetSimpleField k with
  | none => d
  | some s => (s.toInt?).getD d

/-- Modelled from the spec: `SetIntField` stores the integer encoded as a
string. -/
def Record.SetIntField (r : Record) (k : String) (v : Int) : Record :=
  r.SetSimpleField k (toString v)

/-- Modelled from the spec: `GetBooleanField(key, default)` parses the
scalar field as `"true"`/`"false"`, falling back to the default. -/
def Record.GetBooleanField (r : Record) (k : String) (d : Bool) : Bool :=
  match r.GetSimpleField k with
  | none => d
  | some s => if s = "true" then true else if s = "false" then false else d

/-- Modelled from the spec: `SetBooleanField` stores `"true"`/`"false"`. -/
def Record.SetBooleanField (r : Record) (k : String) (v : Bool) : Record :=
  r.SetSimpleField k (if v then "true" else "false")

/-- Modelled from the spec: `SetMapField(key, property, value)` upserts the
inner `property ↦ value` binding of the `key` map field. -/
def Record.SetMapField (r : Record) (k prop v : String) : Record :=
  let inner := (assocGet r.mapFields k).getD []
  { r with mapFields := assocSet r.mapFields k (assocSet inner prop v) }

/-- Modelled from the spec: `RemoveMapField(key)` removes the whole `key`
entry of `mapFields`. -/
def Record.RemoveMapField (r : Record) (k : String) : Record :=
  { r with mapFields := assocRemove r.mapFields k }

/-! ## Key builder (translated from the key-builder source file) -/

/-- `KeyBuilder` generates Zookeeper paths for a cluster. -/
structure KeyBuilder where
  ClusterID : String

namespace KeyBuilder

def cluster (k : KeyBuilder) : String := "/" ++ k.ClusterID

def clusterConfig (k : KeyBuilder) : String :=
  "/" ++ k.ClusterID ++ "/CONFIGS/CLUSTER/" ++ k.ClusterID

def externalView (k : KeyBuilder) : String := "/" ++ k.ClusterID ++ "/EXTERNALVIEW"

def externalViewForResource (k : KeyBuilder) (resource : String) : String :=
  "/" ++ k.ClusterID ++ "/EXTERNALVIEW/" ++ resource

def propertyStore (k : KeyBuilder) : String := "/" ++ k.ClusterID ++ "/PROPERTYSTORE"

def controller (k : KeyBuilder) : String := "/" ++ k.ClusterID ++ "/CONTROLLER"

def controllerErrors (k : KeyBuilder) : String := "/" ++ k.ClusterID ++ "/CONTROLLER/ERRORS"

def controllerHistory (k : KeyBuilder) : String := "/" ++ k.ClusterID ++ "/CONTROLLER/HISTORY"

def controllerMessages (k : KeyBuilder) : String := "/" ++ k.ClusterID ++ "/CONTROLLER/MESSAGES"

def controllerStatusUpdates (k : KeyBuilder) : String :=
  "/" ++ k.ClusterID ++ "/CONTROLLER/STATUSUPDATES"

/-- Modelled from the spec: `controllerMessage` is called by the spectator
but absent from the provided key-builder source; spec §6 places controller
messages at `/CONTROLLER/MESSAGES/<msgId>`. -/
def controllerMessage (k : KeyBuilder) (messageID : String) : String :=
  "/" ++ k.ClusterID ++ "/CONTROLLER/MESSAGES/" ++ messageID

def idealStates (k : KeyBuilder) : String := "/" ++ k.ClusterID ++ "/IDEALSTATES"

def idealStateForResource (k : KeyBuilder) (resource : String) : String :=
  "/" ++ k.ClusterID ++ "/IDEALSTATES/" ++ resource

def resourceConfig (k : KeyBuilder) (resource : String) : String :=
  "/" ++ k.ClusterID ++ "/CONFIGS/RESOURCE/" ++ resource

def participantConfigs (k : KeyBuilder) : String := "/" ++ k.ClusterID ++ "/CONFIGS/PARTICIPANT"

def participantConfig (k : KeyBuilder) (participantID : String) : String :=
  "/" ++ k.ClusterID ++ "/CONFIGS/PARTICIPANT/" ++ participantID

def liveInstances (k : KeyBuilder) : String := "/" ++ k.ClusterID ++ "/LIVEINSTANCES"

def instances (k : KeyBuilder) : String := "/" ++ k.ClusterID ++ "/INSTANCES"

/-- The key-builder method is named `instance` in Go; `instance` is a Lean
keyword, so the model names it `instanceKey`. -/
def instanceKey (k : KeyBuilder) (participantID : String) : String :=
  "/" ++ k.ClusterID ++ "/INSTANCES/" ++ participantID

def liveInstance (k : KeyBuilder) (participantID : String) : String :=
  "/" ++ k.ClusterID ++ "/LIVEINSTANCES/" ++ participantID

def currentStates (k : KeyBuilder) (participantID : String) : String :=
  "/" ++ k.ClusterID ++ "/INSTANCES/" ++ participantID ++ "/CURRENTSTATES"

def currentStatesForSession (k : KeyBuilder) (participantID sessionID : String) : String :=
  "/" ++ k.ClusterID ++ "/INSTANCES/" ++ participantID ++ "/CURRENTSTATES/" ++ sessionID

def currentStateForResource (k : KeyBuilder) (participantID sessionID resourceID : String) :
    String :=
  "/" ++ k.ClusterID ++ "/INSTANCES/" ++ participantID ++ "/CURRENTSTATES/" ++ sessionID ++
    "/" ++ resourceID

def errorsR (k : KeyBuilder) (participantID : String) : String :=
  "/" ++ k.ClusterID ++ "/INSTANCES/" ++ participantID ++ "/ERRORS"

def healthReport (k : KeyBuilder) (participantID : String) : String :=
  "/" ++ k.ClusterID ++ "/INSTANCES/" ++ participantID ++ "/HEALTHREPORT"

def statusUpdates (k : KeyBuilder) (participantID : String) : String :=
  "/" ++ k.ClusterID ++ "/INSTANCES/" ++ participantID ++ "/STATUSUPDATES"

def stateModels (k : KeyBuilder) : String := "/" ++ k.ClusterID ++ "/STATEMODELDEFS"

def stateModel (k : KeyBuilder) (resourceID : String) : String :=
  "/" ++ k.ClusterID ++ "/STATEMODELDEFS/" ++ resourceID

def messages (k : KeyBuilder) (participantID : String) : String :=
  "/" ++ k.ClusterID ++ "/INSTANCES/" ++ participantID ++ "/MESSAGES"

def message (k : KeyBuilder) (participantID messageID : String) : String :=
  "/" ++ k.ClusterID ++ "/INSTANCES/" ++ participantID ++ "/MESSAGES/" ++ messageID

end KeyBuilder

/-! ## The coordinator store

A snapshot of the Zookeeper tree: an association list from znode path to
payload, the payload decoded as a `Record` (the codec is the identity in
this model; an empty node carries `NewRecord ""`).  Ancestor directories
are ordinary entries. -/

abbrev ZK := List (String × Record)

/-- Read a znode's payload (first binding wins). -/
def zkGet : ZK → String → Option Record
  | [], _ => none
  | (q, r) :: t, p => if q = p then some r else zkGet t p

/-- `conn.Exists`. -/
def zkExists (zk : ZK) (p : String) : Bool :=
  (zkGet zk p).isSome

/-- Create a fresh znode (callers check non-existence first, as `Create`
fails on an existing node). -/
def zkInsert (zk : ZK) (p : String) (r : Record) : ZK :=
  (p, r) :: zk

/-- `conn.Set`: replace the payload of an existing node; a missing node is
left untouched (the Go call would fail, and every modelled caller performs
a successful `Get` first). -/
def zkSet : ZK → String → Record → ZK
  | [], _, _ => []
  | (q, r') :: t, p, r => if q = p then (p, r) :: t else (q, r') :: zkSet t p r

/-- `conn.DeleteTree`: drop the node and every descendant.  (The Go
function recursively deletes children post-order; a missing node is a
no-op.) -/
def zkDeleteTree (zk : ZK) (p : String) : ZK :=
  zk.filter (fun kv => !(kv.1 == p || strHasPre (p ++ "/") kv.1))

/-- `conn.Children`: the names of the direct children of a node. -/
def zkChildren (zk : ZK) (p : String) : List String :=
  zk.filterMap (fun kv =>
    let pre := p ++ "/"
    if strHasPre pre kv.1 then
      let rest := strDropLen kv.1 pre.length
      if strHasSlash rest then none else some rest
    else none)

/-- `path.Dir` for the clean paths the key builder produces: everything
before the final separator (`"/"` when the parent is the root, `"."` when
there is no separator, as in Go). -/
def pathDir (p : String) : String :=
  match p.data.reverse.dropWhile (fun c => c ≠ '/') with
  | [] => "."
  | ['/'] => "/"
  | _ :: rest => String.mk rest.reverse

/-- `conn.ensurePath` creates the node and all missing ancestors as empty
nodes.  The Go recursion walks `path.Dir`; the model bounds it by the
path length (in a real tree the walk terminates at the root, which always
exists). -/
def zkEnsurePathF : Nat → ZK → String → ZK
  | 0, zk, _ => zk
  | n + 1, zk, p =>
    if zkExists zk p then zk
    else
      let zk' := if zkExists zk (pathDir p) then zk else zkEnsurePathF n zk (pathDir p)
      zkInsert zk' p (NewRecord "")

def zkEnsurePath (zk : ZK) (p : String) : ZK :=
  zkEnsurePathF p.length zk p

/-! ## Connection-level record helpers (translated from the connection
source, the second document of `participant.go`) -/

/-- `conn.CreateEmptyNode`: `Create` fails when the node exists and the
caller `must`-panics, modelled by `none`. -/
def connCreateEmptyNode (zk : ZK) (p : String) : Option ZK :=
  if zkExists zk p then none else some (zkInsert zk p (NewRecord ""))

/-- `conn.CreateRecordWithPath`: ensure the parent directory, then create
the node (panic on pre-existing node). -/
def connCreateRecordWithPath (zk : ZK) (p : String) (r : Record) : Option ZK :=
  let zk' := zkEnsurePath zk (pathDir p)
  if zkExists zk' p then none else some (zkInsert zk' p r)

/-- `conn.GetRecordFromPath`: read and decode; a missing node never
returns (infinite retry) and a decode failure errors — both `none`. -/
def connGetRecordFromPath (zk : ZK) (p : String) : Option Record :=
  zkGet zk p

/-- `conn.SetRecordForPath`: ensure the path exists, then overwrite the
payload. -/
def connSetRecordForPath (zk : ZK) (p : String) (r : Record) : ZK :=
  let zk' := if zkExists zk p then zk else zkEnsurePath zk p
  zkSet zk' p r

/-- `conn.UpdateMapField(path, key, property, value)`: read-modify-write of
one map-field entry; an error reading the node is returned to the caller
(`none`). -/
def connUpdateMapField (zk : ZK) (p key property value : String) : Option ZK :=
  (zkGet zk p).map (fun node => zkSet zk p (node.SetMapField key property value))

/-- `conn.RemoveMapFieldKey(path, key)`: read-modify-write removing one
map-field key; an error reading the node is returned to the caller
(`none`). -/
def connRemoveMapFieldKey (zk : ZK) (p key : String) : Option ZK :=
  (zkGet zk p).map (fun node => zkSet zk p (node.RemoveMapField key))

/-- `conn.IsClusterSetup`: `ExistsAll` over the thirteen well-known keys,
in source order. -/
def IsClusterSetup (zk : ZK) (cluster : String) : Bool :=
  let keys : KeyBuilder := ⟨cluster⟩
  [keys.cluster, keys.idealStates, keys.participantConfigs, keys.propertyStore,
   keys.liveInstances, keys.instances, keys.externalView, keys.stateModels,
   keys.controller, keys.controllerErrors, keys.controllerHistory,
   keys.controllerMessages, keys.controllerStatusUpdates].all (zkExists zk)

/-! ## Participant (translated from `participant.go`) -/

/-- Modelled from the spec: `statemodel.go` is missing from the sources.
Spec §3: a state model is a set of directed transitions, each bound to a
user handler; only the transition table is relevant here (handlers are
invoked through the event trace below). -/
structure StateModel where
  transitions : List (String × String)
deriving DecidableEq, Repr

/-- `strings.ToUpper`, character-wise (the inputs of this development are
ASCII, where Go and Unicode simple case mapping agree). -/
def strToUpper (s : String) : String :=
  String.mk (s.data.map Char.toUpper)

/-- `strings.ToLower`, character-wise (ASCII inputs). -/
def strToLower (s : String) : String :=
  String.mk (s.data.map Char.toLower)

/-- `strings.EqualFold` (ASCII case-insensitive comparison). -/
def eqFold (a b : String) : Bool :=
  strToUpper a == strToUpper b

/-- Observable calls made while handling a state transition.  `invoke`
would be the state-model handler invocation `(model, from, to, partition)`;
the Go code's `handleStateTransition` contains only a
`TODO: invoke state model transition function` where it should occur. -/
inductive Event where
  | preHandle : Event
  | invoke : String → String → String → String → Event
  | postHandle : Event
deriving DecidableEq, Repr

/-- A Helix participant node; `sessionID` stands for
`p.conn.GetSessionID()` of the live coordinator session. -/
structure Participant where
  ClusterID : String
  Host : String
  Port : String
  ParticipantID : String
  sessionID : String
  stateModels : List (String × StateModel)
deriving DecidableEq, Repr

def Participant.keys (p : Participant) : KeyBuilder := ⟨p.ClusterID⟩

/-- `postHandleMessage` (participant.go:389–416): skip if the message's
target session differs from the live session; on `DROPPED` remove the
partition key from the session-level current-states node; then
unconditionally read-modify-write `CURRENT_STATE` on the per-resource
current-state node (`must` on its error, hence `none`). -/
def postHandleMessage (p : Participant) (zk : ZK) (message : Record) : Option ZK := do
  let sessionID := p.sessionID
  let targetSessionID := message.GetSimpleField "TGT_SESSION_ID"
  let toState ← message.GetSimpleField "TO_STATE"
  let partitionName ← message.GetSimpleField "PARTITION_NAME"
  if targetSessionID.isSome && targetSessionID != some sessionID then
    return zk
  let zk :=
    if strToUpper toState == "DROPPED" then
      -- the error result of RemoveMapFieldKey is discarded by the caller
      (connRemoveMapFieldKey zk (p.keys.currentStatesForSession p.ParticipantID sessionID)
        partitionName).getD zk
    else zk
  let resourceID ← message.GetSimpleField "RESOURCE_NAME"
  let currentStateForResourcePath :=
    p.keys.currentStateForResource p.ParticipantID p.sessionID resourceID
  let zk ← connUpdateMapField zk currentStateForResourcePath partitionName "CURRENT_STATE" toState
  return zk

/-- `handleStateTransition` (participant.go:366–383): record
`EXECUTE_START_TIMESTAMP`, call `preHandleMessage` (empty body), then —
the state-model handler invocation is missing in the source (`TODO`) —
call `postHandleMessage`.  Returns the store plus the event trace. -/
def handleStateTransition (p : Participant) (zk : ZK) (message : Record) (nowMilli : Int) :
    Option (ZK × List Event) := do
  let _fromState ← message.GetSimpleField "FROM_STATE"
  let _toState ← message.GetSimpleField "TO_STATE"
  let startTime := toString nowMilli
  let message := message.SetSimpleField "EXECUTE_START_TIMESTAMP" startTime
  -- preHandleMessage(message): empty body in the source
  -- TODO in the source: invoke state model transition function
  let zk ← postHandleMessage p zk message
  return (zk, [Event.preHandle, Event.postHandle])

/-- `processMessage` (participant.go:284–364).  `nowSec` models
`time.Now().Unix()` and `nowMilli` the millisecond timestamp; both are
recorded in the in-memory message copy.  `none` models a `must` panic (or
an operation on a missing node that never returns). -/
def processMessage (p : Participant) (zk : ZK) (msgID : String) (nowSec nowMilli : Int) :
    Option (ZK × List Event) := do
  let msgPath := p.keys.message p.ParticipantID msgID
  let message ← connGetRecordFromPath zk msgPath
  let msgType ← message.GetSimpleField "MSG_TYPE"
  if msgType == "NO_OP" then
    return (zkDeleteTree zk msgPath, [])
  let sessionID ← message.GetSimpleField "TGT_SESSION_ID"
  if sessionID != p.sessionID && sessionID != "*" then
    return (zkDeleteTree zk msgPath, [])
  let msgState ← message.GetSimpleField "MSG_STATE"
  if !(eqFold msgState "NEW") then
    return (zk, [])
  let message := ((message.SetSimpleField "MSG_STATE" "READ").SetSimpleField
    "READ_TIMESTAMP" (toString nowSec)).SetSimpleField "EXE_SESSION_ID" p.sessionID
  let targetName ← message.GetSimpleField "TGT_NAME"
  let zk ←
    if !(eqFold targetName "CONTROLLER") && eqFold msgType "STATE_TRANSITION" then do
      let resourceID ← message.GetSimpleField "RESOURCE_NAME"
      let currentStateRecord := NewRecord resourceID
      let bucketSize := message.GetIntField "BUCKET_SIZE" 0
      let currentStateRecord := currentStateRecord.SetIntField "BUCKET_SIZE" bucketSize
      let stateModelRef ← message.GetSimpleField "STATE_MODEL_DEF"
      let currentStateRecord := currentStateRecord.SetSimpleField "STATE_MODEL_DEF" stateModelRef
      let currentStateRecord := currentStateRecord.SetSimpleField "SESSION_ID" sessionID
      let batchMode := message.GetBooleanField "BATCH_MESSAGE_MODE" false
      let currentStateRecord := currentStateRecord.SetBooleanField "BATCH_MESSAGE_MODE" batchMode
      let factoryName := (message.GetSimpleField "STATE_MODEL_FACTORY_NAME").getD "DEFAULT"
      let currentStateRecord := currentStateRecord.SetSimpleField "STATE_MODEL_FACTORY_NAME"
        factoryName
      -- note: the path uses the message's TGT_SESSION_ID
      let path := p.keys.currentStateForResource p.ParticipantID sessionID resourceID
      if !(zkExists zk path) then
        pure (connSetRecordForPath zk path currentStateRecord)
      else
        pure zk
    else
      pure zk
  let (zk, trace) ← handleStateTransition p zk message nowMilli
  return (zkDeleteTree zk msgPath, trace)

/-- `autoJoinAllowed` (participant.go:187–206): read the cluster config
record and test `allowParticipantAutoJoin == "true"` case-insensitively. -/
def autoJoinAllowed (p : Participant) (zk : ZK) : Option Bool :=
  (zkGet zk p.keys.clusterConfig).map (fun c =>
    match c.GetSimpleField "allowParticipantAutoJoin" with
    | none => false
    | some al => strToLower al == "true")

/-- `ensureParticipantConfig` (participant.go:208–250): when the config is
absent and auto-join is allowed, create the participant config record
(`HELIX_HOST`, `HELIX_PORT`, `HELIX_ENABLED="true"`) and the six empty
participant sub-paths; when absent and auto-join is disabled, report
`false`. -/
def ensureParticipantConfig (p : Participant) (zk : ZK) : Option (Bool × ZK) := do
  let key := p.keys.participantConfig p.ParticipantID
  let ex := zkExists zk key
  let allowJoin ← autoJoinAllowed p zk
  if !ex && allowJoin then
    let participant := ((NewRecord p.ParticipantID).SetSimpleField "HELIX_HOST"
      p.Host).SetSimpleField "HELIX_PORT" p.Port
    let participant := participant.SetSimpleField "HELIX_ENABLED" "true"
    let zk ← connCreateRecordWithPath zk key participant
    let zk ← connCreateEmptyNode zk (p.keys.instanceKey p.ParticipantID)
    let zk ← connCreateEmptyNode zk (p.keys.currentStates p.ParticipantID)
    let zk ← connCreateEmptyNode zk (p.keys.errorsR p.ParticipantID)
    let zk ← connCreateEmptyNode zk (p.keys.healthReport p.ParticipantID)
    let zk ← connCreateEmptyNode zk (p.keys.messages p.ParticipantID)
    let zk ← connCreateEmptyNode zk (p.keys.statusUpdates p.ParticipantID)
    return (true, zk)
  else if !ex then
    return (false, zk)
  else
    return (true, zk)

/-- `cleanUp` (participant.go:133–146): delete every current-state subtree
of a session other than the live one. -/
def cleanUp (p : Participant) (zk : ZK) : ZK :=
  let currentStatePath := p.keys.currentStates p.ParticipantID
  (zkChildren zk currentStatePath).foldl
    (fun z s => if s = p.sessionID then z else zkDeleteTree z (currentStatePath ++ "/" ++ s)) zk

/-- Modelled from the spec: `NewLiveInstanceNode` is missing from the
sources; spec §3 describes the live instance as an ephemeral record with
the participant id carrying the session id. -/
def NewLiveInstanceNode (participantID sessionID : String) : Record :=
  (NewRecord participantID).SetSimpleField "SESSION_ID" sessionID

/-- `createLiveInstance` (participant.go:490–515): create the ephemeral
live-instance node; if it persists after the retry window, `must` panics
(`none`). -/
def createLiveInstance (p : Participant) (zk : ZK) : Option ZK :=
  let path := p.keys.liveInstance p.ParticipantID
  if zkExists zk path then none
  else some (zkInsert zk path (NewLiveInstanceNode p.ParticipantID p.sessionID))

/-- Errors returned by `Participant.Connect`. -/
inductive GoErr where
  | noStateModel : GoErr
  | clusterNotSetup : GoErr
  | ensureParticipantConfig : GoErr
deriving DecidableEq, Repr

/-- Outcome of `Participant.Connect`: the resulting store, the returned
error (if any), and whether `Disconnect` was called on the way out. -/
structure ConnectResult where
  zk : ZK
  err : Option GoErr
  disconnectCalled : Bool
deriving DecidableEq, Repr

/-- `Participant.Connect` (participant.go:91–131): validate the state
models, verify the cluster layout, ensure the participant config
(disconnect and fail when auto-join is refused), purge stale current-state
subtrees, start the event loop (no coordinator effect at call time) and
create the live-instance node. -/
def Connect (p : Participant) (zk : ZK) : Option ConnectResult := do
  if p.stateModels.isEmpty then
    return ⟨zk, some .noStateModel, false⟩
  -- pre-connect callbacks: user code without coordinator effects
  if !(IsClusterSetup zk p.ClusterID) then
    return ⟨zk, some .clusterNotSetup, false⟩
  let (allowed, zk) ← ensureParticipantConfig p zk
  if !allowed then
    -- p.Disconnect()
    return ⟨zk, some .ensureParticipantConfig, true⟩
  let zk := cleanUp p zk
  -- p.loop(): starts the watcher and dispatch goroutines
  let zk ← createLiveInstance p zk
  return ⟨zk, none, false⟩

/-! ## Spectator snapshot accessor (translated from the spectator source) -/

/-- `Spectator.GetControllerMessages`: list the children of
`CONTROLLER/MESSAGES` and, for each child, append the read record **only
when the read fails** (`if err != nil` in the source — with `record` being
`nil` on that branch, modelled as `none`). -/
def GetControllerMessages (keys : KeyBuilder) (zk : ZK) : List (Option Record) :=
  (zkChildren zk keys.controllerMessages).foldl
    (fun result m =>
      match connGetRecordFromPath zk (keys.controllerMessage m) with
      | some _ => result
      | none => result ++ [none])
    []

/-! ## Participant dispatch loop (translated from `loop`,
participant.go:443–488)

The loop owns `messageProcessedTime : map msgId → time`; snapshot handling
processes a message id only when it is absent from the map and then records
the current time, otherwise skips it; the housekeeping goroutine deletes
every entry whose age exceeds 10 seconds.  The two goroutines are modelled
as an interleaving of atomic steps over the shared map, each step stamped
with the (monotone) real time at which it runs. -/

/-- The shared `messageProcessedTime` map (a Go map has unique keys, hence
a function). -/
def SeenMap := String → Option ℚ

def emptySeen : SeenMap := fun _ => none

/-- `messageProcessedTime[msg] = time.Now()`. -/
def seenRecord (s : SeenMap) (m : String) (t : ℚ) : SeenMap :=
  fun k => if k = m then some t else s k

/-- One pass of the housekeeping goroutine at time `t`:
`if time.Since(v).Seconds() > 10 { delete }`. -/
def seenEvict (s : SeenMap) (t : ℚ) : SeenMap :=
  fun k =>
    match s k with
    | none => none
    | some v => if t - v > 10 then none else some v

/-- One atomic step of the loop: the dispatch goroutine processing or
skipping a message id of a snapshot, or the 5-second housekeeping tick. -/
inductive LoopStep where
  | process : String → ℚ → LoopStep
  | skipSeen : String → ℚ → LoopStep
  | tick : ℚ → LoopStep
deriving DecidableEq, Repr

def LoopStep.time : LoopStep → ℚ
  | .process _ t => t
  | .skipSeen _ t => t
  | .tick t => t

/-- Effect of one step; `none` marks a step the code cannot take
(processing an id in the map, or skipping one absent from it). -/
def runStep (s : SeenMap) : LoopStep → Option SeenMap
  | .process m t => if (s m).isNone then some (seenRecord s m t) else none
  | .skipSeen m _ => if (s m).isSome then some s else none
  | .tick t => some (seenEvict s t)

/-- Run a step sequence starting from map `s` at time `tl`; steps must
carry nondecreasing times. -/
def runTrace (s : SeenMap) (tl : ℚ) : List LoopStep → Option SeenMap
  | [] => some s
  | step :: rest =>
    if step.time < tl then none
    else
      match runStep s step with
      | none => none
      | some s' => runTrace s' step.time rest

/-! ## Concrete fixtures used by witnesses, counterexamples and
evaluation theorems -/

/-- A small fixture participant used by witnesses. -/
def wParticipant : Participant :=
  ⟨"C", "h", "1000", "h_1000", "s1", [("OnlineOffline", ⟨[("OFFLINE", "ONLINE")]⟩)]⟩

/-- Fixture: a `NO_OP` message record. -/
def wNoopRecord : Record := (NewRecord "m1").SetSimpleField "MSG_TYPE" "NO_OP"

/-- Fixture: a store holding only the `NO_OP` message. -/
def wNoopZK : ZK := [(wParticipant.keys.message "h_1000" "m1", wNoopRecord)]

/-- Fixture: a participant whose session is `abcd`. -/
def wParticipantAbcd : Participant :=
  ⟨"C", "h", "1000", "h_1000", "abcd", [("OnlineOffline", ⟨[("OFFLINE", "ONLINE")]⟩)]⟩

/-- Fixture: a message targeted at the expired session `ffff`. -/
def wStaleRecord : Record :=
  ((NewRecord "m1").SetSimpleField "MSG_TYPE" "STATE_TRANSITION").SetSimpleField
    "TGT_SESSION_ID" "ffff"

/-- Fixture: a store holding only the stale message. -/
def wStaleZK : ZK := [(wParticipantAbcd.keys.message "h_1000" "m1", wStaleRecord)]

/-- Fixture: a `READ`-state message matching the live session. -/
def wReadRecord : Record :=
  (((NewRecord "m1").SetSimpleField "MSG_TYPE" "STATE_TRANSITION").SetSimpleField
    "TGT_SESSION_ID" "s1").SetSimpleField "MSG_STATE" "READ"

/-- Fixture: a store holding only the `READ`-state message. -/
def wReadZK : ZK := [(wParticipant.keys.message "h_1000" "m1", wReadRecord)]

/-- Fixture: a wildcard-targeted transition message. -/
def wWildcardRecord : Record :=
  ((((NewRecord "m1").SetSimpleField "TGT_SESSION_ID" "*").SetSimpleField
    "TO_STATE" "ONLINE").SetSimpleField "PARTITION_NAME" "r_0").SetSimpleField
    "RESOURCE_NAME" "r"

/-- Fixture: a store with an existing current-state record. -/
def wWildcardZK : ZK :=
  [(wParticipant.keys.currentStateForResource "h_1000" "s1" "r", NewRecord "r")]

/-- Modelled from the spec (§6): the paths of the coordinator layout under
`/<cluster>`, excluding per-entity leaves — the set `isClusterSetup` is
claimed to check. -/
def specLayoutPaths (c : String) : List String :=
  ["/" ++ c,
   "/" ++ c ++ "/CONFIGS/CLUSTER",
   "/" ++ c ++ "/CONFIGS/PARTICIPANT",
   "/" ++ c ++ "/CONFIGS/RESOURCE",
   "/" ++ c ++ "/IDEALSTATES",
   "/" ++ c ++ "/EXTERNALVIEW",
   "/" ++ c ++ "/LIVEINSTANCES",
   "/" ++ c ++ "/INSTANCES",
   "/" ++ c ++ "/STATEMODELDEFS",
   "/" ++ c ++ "/CONTROLLER",
   "/" ++ c ++ "/CONTROLLER/ERRORS",
   "/" ++ c ++ "/CONTROLLER/HISTORY",
   "/" ++ c ++ "/CONTROLLER/MESSAGES",
   "/" ++ c ++ "/CONTROLLER/STATUSUPDATES",
   "/" ++ c ++ "/PROPERTYSTORE"]

/-- The thirteen paths `IsClusterSetup` actually probes, written as
explicit strings (source order). -/
def isClusterSetupCheckedPaths (c : String) : List String :=
  ["/" ++ c,
   "/" ++ c ++ "/IDEALSTATES",
   "/" ++ c ++ "/CONFIGS/PARTICIPANT",
   "/" ++ c ++ "/PROPERTYSTORE",
   "/" ++ c ++ "/LIVEINSTANCES",
   "/" ++ c ++ "/INSTANCES",
   "/" ++ c ++ "/EXTERNALVIEW",
   "/" ++ c ++ "/STATEMODELDEFS",
   "/" ++ c ++ "/CONTROLLER",
   "/" ++ c ++ "/CONTROLLER/ERRORS",
   "/" ++ c ++ "/CONTROLLER/HISTORY",
   "/" ++ c ++ "/CONTROLLER/MESSAGES",
   "/" ++ c ++ "/CONTROLLER/STATUSUPDATES"]

/-- Fixture: a store holding exactly the thirteen checked paths — in
particular neither `CONFIGS/CLUSTER` nor `CONFIGS/RESOURCE`. -/
def c8ZK : ZK := (isClusterSetupCheckedPaths "C").map (fun p => (p, NewRecord ""))

/-- Fixture: the spec's S4 message — a normal `OFFLINE → SLAVE` transition
for partition `myDB_5` of resource `myDB`, targeted at the live session. -/
def s4Message : Record :=
  { id := "m1"
    simpleFields :=
      [("MSG_TYPE", "STATE_TRANSITION"), ("TGT_SESSION_ID", "s1"), ("MSG_STATE", "new"),
       ("TGT_NAME", "h_1000"), ("RESOURCE_NAME", "myDB"), ("STATE_MODEL_DEF", "MasterSlave"),
       ("FROM_STATE", "OFFLINE"), ("TO_STATE", "SLAVE"), ("PARTITION_NAME", "myDB_5")]
    listFields := []
    mapFields := [] }

/-- Fixture: a store holding only the S4 message. -/
def s4ZK : ZK := [(wParticipant.keys.message "h_1000" "m1", s4Message)]

/-- Fixture: the spec's S5 message — drop partition `myDB_5`. -/
def s5DroppedMessage : Record :=
  { id := "m2"
    simpleFields :=
      [("MSG_TYPE", "STATE_TRANSITION"), ("TGT_SESSION_ID", "s1"), ("MSG_STATE", "new"),
       ("TGT_NAME", "h_1000"), ("RESOURCE_NAME", "myDB"), ("STATE_MODEL_DEF", "MasterSlave"),
       ("FROM_STATE", "SLAVE"), ("TO_STATE", "DROPPED"), ("PARTITION_NAME", "myDB_5")]
    listFields := []
    mapFields := [] }

/-- Fixture: the (session, resource) current-state record carrying
`myDB_5 ↦ CURRENT_STATE = SLAVE`, plus the session-level node. -/
def s5ZK : ZK :=
  [(wParticipant.keys.currentStatesForSession "h_1000" "s1", NewRecord ""),
   (wParticipant.keys.currentStateForResource "h_1000" "s1" "myDB",
    { id := "myDB", simpleFields := [], listFields := [],
      mapFields := [("myDB_5", [("CURRENT_STATE", "SLAVE")])] })]

/-- Fixture: a controller-messages subtree with one readable message. -/
def c9Keys : KeyBuilder := ⟨"C"⟩

def c9MsgRecord : Record := (NewRecord "cm1").SetSimpleField "MSG_TYPE" "NO_OP"

def c9ZK : ZK :=
  [(c9Keys.controllerMessages, NewRecord ""), (c9Keys.controllerMessage "cm1", c9MsgRecord)]

/-- Fixture: a cluster config record enabling auto-join. -/
def w6Cfg : Record := (NewRecord "C").SetSimpleField "allowParticipantAutoJoin" "true"

/-- Fixture: a store with the cluster config and the participant-configs
directory, and no participant data. -/
def w6ZK : ZK :=
  [(wParticipant.keys.clusterConfig, w6Cfg), ("/C/CONFIGS/PARTICIPANT", NewRecord "")]

/-- Fixture: a cluster config record disabling auto-join. -/
def w6bCfg : Record := (NewRecord "C").SetSimpleField "allowParticipantAutoJoin" "false"

/-- Fixture: a fully set-up cluster whose config disables auto-join. -/
def w6bZK : ZK :=
  (isClusterSetupCheckedPaths "C").map (fun q => (q, NewRecord "")) ++
    [(wParticipant.keys.clusterConfig, w6bCfg)]

/-- Fixture: a loop run where `a` is processed, skipped while cached,
evicted by the 11-second tick, and processed again at 12 seconds. -/
def wTrace : List LoopStep :=
  [.process "a" 0, .skipSeen "a" 1, .tick 11, .process "a" 12]

/-! ### Store lemmas -/

theorem zkGet_insert (zk : ZK) (p q : String) (r : Record) :
    zkGet (zkInsert zk p r) q = if p = q then some r else zkGet zk q := by
  simp [zkInsert, zkGet]

theorem zkExists_insert (zk : ZK) (p q : String) (r : Record) :
    zkExists (zkInsert zk p r) q = (p = q || zkExists zk q) := by
  by_cases h : p = q <;> simp [zkExists, zkGet_insert, h]

theorem zkGet_set_ne (zk : ZK) (p q : String) (r : Record) (h : p ≠ q) :
    zkGet (zkSet zk p r) q = zkGet zk q := by
  induction zk with
  | nil => simp [zkSet]
  | cons kv t ih =>
    obtain ⟨a, b⟩ := kv
    by_cases hp : a = p
    · subst hp
      simp [zkSet, zkGet, h]
    · simp [zkSet, zkGet, hp, ih]

theorem zkGet_set_self (zk : ZK) (p : String) (r : Record) (h : zkExists zk p = true) :
    zkGet (zkSet zk p r) p = some r := by
  induction zk with
  | nil => simp [zkExists, zkGet] at h
  | cons kv t ih =>
    obtain ⟨a, b⟩ := kv
    by_cases hp : a = p
    · simp [zkSet, zkGet, hp]
    · simp [zkExists, zkGet, hp] at h
      simpa [zkSet, zkGet, hp] using ih h

theorem zkEnsurePath_of_exists (zk : ZK) (p : String) (h : zkExists zk p = true) :
    zkEnsurePath zk p = zk := by
  unfold zkEnsurePath
  cases hl : p.length with
  | zero => rfl
  | succ n => simp [zkEnsurePathF, h]

theorem zkGet_deleteTree_ne (zk : ZK) (p q : String)
    (h : (q == p || strHasPre (p ++ "/") q) = false) :
    zkGet (zkDeleteTree zk p) q = zkGet zk q := by
  induction zk with
  | nil => rfl
  | cons kv t ih =>
    obtain ⟨a, b⟩ := kv
    simp only [zkDeleteTree, Bool.not_or] at ih ⊢
    rw [List.filter_cons]
    by_cases haq : a = q
    · subst haq
      have h1 : (a == p) = false := by
        cases hx : (a == p) with
        | false => rfl
        | true => rw [hx] at h; simp at h
      have h2 : (strHasPre (p ++ "/") a) = false := by
        cases hx : (strHasPre (p ++ "/") a) with
        | false => rfl
        | true => rw [hx] at h; simp at h
      rw [h1, h2]
      simp [zkGet]
    · cases hc : (!(a == p) && !(strHasPre (p ++ "/") a)) with
      | true => simp [hc, zkGet, haq, ih]
      | false => simp [hc, zkGet, haq, ih]

/-- Times never decrease along a successful run. -/
theorem runTrace_time_mono (trace : List LoopStep) (s : SeenMap) (tl : ℚ)
    (h : (runTrace s tl trace).isSome) :
    ∀ step ∈ trace, tl ≤ step.time := by
  induction trace generalizing s tl with
  | nil => intro step hs; cases hs
  | cons hd rest ih =>
    intro step hs
    rw [runTrace] at h
    by_cases hlt : hd.time < tl
    · simp [hlt] at h
    · push_neg at hlt
      rcases List.mem_cons.mp hs with heq | hs
      · subst heq; exact hlt
      · cases hrun : runStep s hd with
        | none => rw [if_neg (not_lt.mpr hlt), hrun] at h; simp at h
        | some s' =>
          rw [if_neg (not_lt.mpr hlt), hrun] at h
          exact le_trans hlt (ih s' hd.time h step hs)

/-- While `m ↦ v` is in the map, any later `process m` step in a
successful run happens more than 10 seconds after `v`. -/
theorem runTrace_process_late (trace : List LoopStep) (s : SeenMap) (tl : ℚ)
    (m : String) (v : ℚ)
    (h : (runTrace s tl trace).isSome) (hm : s m = some v) :
    ∀ i t, trace.get? i = some (.process m t) → t - v > 10 := by
  induction trace generalizing s tl with
  | nil => intro i t hi; simp at hi
  | cons hd rest ih =>
    intro i t hi
    rw [runTrace] at h
    by_cases hlt : hd.time < tl
    · simp [hlt] at h
    · rw [if_neg hlt] at h
      cases hrun : runStep s hd with
      | none => rw [hrun] at h; simp at h
      | some s' =>
        rw [hrun] at h
        cases i with
        | zero =>
          simp at hi
          subst hi
          rw [runStep] at hrun
          rw [hm] at hrun
          simp at hrun
        | succ j =>
          simp only [List.get?_cons_succ] at hi
          cases hd with
          | process m' t' =>
            rw [runStep] at hrun
            by_cases hmm : m' = m
            · subst hmm; rw [hm] at hrun; simp at hrun
            · cases hnone : s m' with
              | some w => rw [hnone] at hrun; simp at hrun
              | none =>
                rw [hnone] at hrun
                simp at hrun
                have hne : m ≠ m' := fun e => hmm e.symm
                have hs'm : s' m = some v := by
                  rw [← hrun]; simp [seenRecord, hne, hm]
                exact ih s' _ h hs'm j t hi
          | skipSeen m' t' =>
            rw [runStep] at hrun
            by_cases hsk : (s m').isSome
            · rw [if_pos hsk] at hrun
              simp at hrun
              subst hrun
              exact ih s _ h hm j t hi
            · rw [if_neg hsk] at hrun; exact Option.noConfusion hrun
          | tick te =>
            rw [runStep] at hrun
            simp at hrun
            subst hrun
            by_cases hev : te - v > 10
            · have hmem : LoopStep.process m t ∈ rest := List.get?_mem hi
              have hle := runTrace_time_mono rest (seenEvict s te) te h
                (LoopStep.process m t) hmem
              simp only [LoopStep.time] at hle
              linarith
            · have hkeep : seenEvict s te m = some v := by
                simp [seenEvict, hm, hev]
              exact ih (seenEvict s te) te h hkeep j t hi

/-- Any two `process` steps of the same message id in a successful run are
more than 10 seconds apart. -/
theorem runTrace_two_process_gap (trace : List LoopStep) (s : SeenMap) (tl : ℚ)
    (h : (runTrace s tl trace).isSome) :
    ∀ i j m ti tj, i < j → trace.get? i = some (.process m ti) →
      trace.get? j = some (.process m tj) → tj - ti > 10 := by
  induction trace generalizing s tl with
  | nil => intro i j m ti tj _ hi _; simp at hi
  | cons hd rest ih =>
    intro i j m ti tj hij hi hj
    rw [runTrace] at h
    by_cases hlt : hd.time < tl
    · simp [hlt] at h
    · rw [if_neg hlt] at h
      cases hrun : runStep s hd with
      | none => rw [hrun] at h; simp at h
      | some s' =>
        rw [hrun] at h
        cases i with
        | zero =>
          simp at hi
          subst hi
          rw [runStep] at hrun
          cases hsm : s m with
          | some w => rw [hsm] at hrun; simp at hrun
          | none =>
            rw [hsm] at hrun
            simp at hrun
            subst hrun
            have hs'm : seenRecord s m ti m = some ti := by simp [seenRecord]
            cases j with
            | zero => omega
            | succ jp =>
              simp only [List.get?_cons_succ] at hj
              exact runTrace_process_late rest _ _ m ti h hs'm jp tj hj
        | succ ip =>
          cases j with
          | zero => omega
          | succ jp =>
            simp only [List.get?_cons_succ] at hi hj
            exact ih s' _ h ip jp m ti tj (by omega) hi hj

/-- Auto-join: when the cluster config enables `allowParticipantAutoJoin`
and the participant config is absent, `ensureParticipantConfig` creates the
config record with `HELIX_HOST`/`HELIX_PORT`/`HELIX_ENABLED="true"` and the
six empty participant sub-paths, and reports `true`.  (The parent-directory
and distinctness hypotheses hold in any set-up cluster and are discharged
concretely by the witness.) -/
theorem ensureParticipantConfig_creates
    (p : Participant) (zk : ZK) (cfg : Record)
    (hcfg : zkGet zk p.keys.clusterConfig = some cfg)
    (hallow : cfg.GetSimpleField "allowParticipantAutoJoin" = some "true")
    (h0 : zkExists zk (p.keys.participantConfig p.ParticipantID) = false)
    (hpar : zkExists zk (pathDir (p.keys.participantConfig p.ParticipantID)) = true)
    (h1 : zkExists zk (p.keys.instanceKey p.ParticipantID) = false)
    (h2 : zkExists zk (p.keys.currentStates p.ParticipantID) = false)
    (h3 : zkExists zk (p.keys.errorsR p.ParticipantID) = false)
    (h4 : zkExists zk (p.keys.healthReport p.ParticipantID) = false)
    (h5 : zkExists zk (p.keys.messages p.ParticipantID) = false)
    (h6 : zkExists zk (p.keys.statusUpdates p.ParticipantID) = false)
    (hnd : ([p.keys.participantConfig p.ParticipantID, p.keys.instanceKey p.ParticipantID,
      p.keys.currentStates p.ParticipantID, p.keys.errorsR p.ParticipantID,
      p.keys.healthReport p.ParticipantID, p.keys.messages p.ParticipantID,
      p.keys.statusUpdates p.ParticipantID]).Nodup) :
    ∃ zk',
      ensureParticipantConfig p zk = some (true, zk') ∧
      (zkGet zk' (p.keys.participantConfig p.ParticipantID)).map
        (fun r => (r.GetSimpleField "HELIX_HOST", r.GetSimpleField "HELIX_PORT",
          r.GetSimpleField "HELIX_ENABLED")) =
        some (some p.Host, some p.Port, some "true") ∧
      zkExists zk' (p.keys.instanceKey p.ParticipantID) = true ∧
      zkExists zk' (p.keys.currentStates p.ParticipantID) = true ∧
      zkExists zk' (p.keys.errorsR p.ParticipantID) = true ∧
      zkExists zk' (p.keys.healthReport p.ParticipantID) = true ∧
      zkExists zk' (p.keys.messages p.ParticipantID) = true ∧
      zkExists zk' (p.keys.statusUpdates p.ParticipantID) = true := by
  simp only [List.nodup_cons, List.mem_cons, List.mem_singleton, List.not_mem_nil,
    or_false, not_or, List.nodup_nil, and_true] at hnd
  obtain ⟨⟨h01, h02, h03, h04, h05, h06⟩, ⟨h12, h13, h14, h15, h16⟩,
    ⟨h23, h24, h25, h26⟩, ⟨h34, h35, h36⟩, ⟨h45, h46⟩, h56, -⟩ := hnd
  refine ⟨zkInsert (zkInsert (zkInsert (zkInsert (zkInsert (zkInsert (zkInsert zk
      (p.keys.participantConfig p.ParticipantID)
      ((((NewRecord p.ParticipantID).SetSimpleField "HELIX_HOST" p.Host).SetSimpleField
        "HELIX_PORT" p.Port).SetSimpleField "HELIX_ENABLED" "true"))
      (p.keys.instanceKey p.ParticipantID) (NewRecord ""))
      (p.keys.currentStates p.ParticipantID) (NewRecord ""))
      (p.keys.errorsR p.ParticipantID) (NewRecord ""))
      (p.keys.healthReport p.ParticipantID) (NewRecord ""))
      (p.keys.messages p.ParticipantID) (NewRecord ""))
      (p.keys.statusUpdates p.ParticipantID) (NewRecord ""),
    ?_, ?_, ?_, ?_, ?_, ?_, ?_, ?_⟩
  · simp [ensureParticipantConfig, autoJoinAllowed, hcfg, hallow, h0, h1, h2, h3, h4, h5, h6,
      connCreateRecordWithPath, connCreateEmptyNode, zkEnsurePath_of_exists zk _ hpar,
      zkExists_insert, h01, h02, h03, h04, h05, h06, h12, h13, h14, h15, h16, h23, h24, h25,
      h26, h34, h35, h36, h45, h46, h56, show strToLower "true" = "true" from rfl]
  · simp [zkGet_insert, Ne.symm h01, Ne.symm h02, Ne.symm h03, Ne.symm h04, Ne.symm h05,
      Ne.symm h06, Record.GetSimpleField, Record.SetSimpleField, NewRecord, assocSet, assocGet]
  all_goals simp [zkExists_insert]

/-- When the participant config is absent and auto-join is not enabled,
`Connect` calls `Disconnect` and returns `ErrEnsureParticipantConfig`. -/
theorem connect_autojoin_refused
    (p : Participant) (zk : ZK) (cfg : Record) (al : String)
    (hsm : p.stateModels ≠ [])
    (hsetup : IsClusterSetup zk p.ClusterID = true)
    (hcfg : zkGet zk p.keys.clusterConfig = some cfg)
    (hallow : cfg.GetSimpleField "allowParticipantAutoJoin" = some al)
    (hfalse : strToLower al ≠ "true")
    (h0 : zkExists zk (p.keys.participantConfig p.ParticipantID) = false) :
    Connect p zk = some ⟨zk, some GoErr.ensureParticipantConfig, true⟩ := by
  have hsm' : p.stateModels.isEmpty = false := by
    cases hsmm : p.stateModels with
    | nil => exact absurd hsmm hsm
    | cons a t => rfl
  have hal : (strToLower al == "true") = false := by
    cases hx : (strToLower al == "true") with
    | false => rfl
    | true => exact absurd (eq_of_beq hx) hfalse
  simp [Connect, hsm', hsetup, ensureParticipantConfig, autoJoinAllowed, hcfg, hallow, hal, h0]

/-! ## Claims -/

/-- C1: the claim expects the registered state-model transition handler for
`(MasterSlave, OFFLINE, SLAVE)` to run with `myDB_5` between `preHandle`
and `postHandle`.  Evaluating `processMessage` on the S4 message, whose
checks all pass, yields the event trace `[preHandle, postHandle]`: no
`Event.invoke` occurs, because `handleStateTransition` in the source holds
only a `TODO` where the state-model handler call should be
(participant.go:379). -/
theorem claim_C1_handler_never_invoked :
    (processMessage wParticipant s4ZK "m1" 0 0).map Prod.snd =
      some [Event.preHandle, Event.postHandle] := by decide

/-- C2: the claim expects a `TO_STATE = DROPPED` message to remove the
partition key from the (session, resource) record's mapField, and the
`CURRENT_STATE` upsert to happen only otherwise.  Evaluating
`postHandleMessage` on the S5 message: the partition key `myDB_5` is still
present afterwards, upserted to `CURRENT_STATE = DROPPED` — the source
removes the key from the session-level node instead (participant.go:406)
and then upserts unconditionally (participant.go:414). -/
theorem claim_C2_dropped_key_kept :
    ((postHandleMessage wParticipant s5ZK s5DroppedMessage).bind
      (fun zk' =>
        (zkGet zk' (wParticipant.keys.currentStateForResource "h_1000" "s1" "myDB")).map
          (fun r => assocGet r.mapFields "myDB_5"))) =
      some (some [("CURRENT_STATE", "DROPPED")]) := by decide

/-- C3: for every message whose `TGT_SESSION_ID` is neither the current
session id nor `"*"`, `processMessage` deletes the message znode and
returns without invoking any handler (empty trace) and without mutating
any other znode (in particular no current-state record).  This covers the
`NO_OP` short-circuit as well, which also deletes without a handler. -/
theorem claim_C3_stale_session (p : Participant) (zk : ZK) (msgID : String)
    (nowSec nowMilli : Int) (r : Record) (mt sid : String)
    (hget : zkGet zk (p.keys.message p.ParticipantID msgID) = some r)
    (htype : r.GetSimpleField "MSG_TYPE" = some mt)
    (hsid : r.GetSimpleField "TGT_SESSION_ID" = some sid)
    (hne1 : sid ≠ p.sessionID) (hne2 : sid ≠ "*") :
    processMessage p zk msgID nowSec nowMilli =
      some (zkDeleteTree zk (p.keys.message p.ParticipantID msgID), []) ∧
    ∀ q, (q == p.keys.message p.ParticipantID msgID ||
        strHasPre (p.keys.message p.ParticipantID msgID ++ "/") q) = false →
      zkGet (zkDeleteTree zk (p.keys.message p.ParticipantID msgID)) q = zkGet zk q := by
  refine ⟨?_, fun q hq => zkGet_deleteTree_ne zk _ q hq⟩
  by_cases hmt : mt = "NO_OP"
  · subst hmt
    simp [processMessage, connGetRecordFromPath, hget, htype]
  · simp [processMessage, connGetRecordFromPath, hget, htype, hsid, hmt, hne1, hne2]

theorem claim_C3_stale_session_witness :
    zkGet wStaleZK (wParticipantAbcd.keys.message wParticipantAbcd.ParticipantID "m1") =
      some wStaleRecord ∧
    ("ffff" ≠ wParticipantAbcd.sessionID ∧ "ffff" ≠ "*") ∧
    processMessage wParticipantAbcd wStaleZK "m1" 0 0 =
      some (zkDeleteTree wStaleZK
        (wParticipantAbcd.keys.message wParticipantAbcd.ParticipantID "m1"), []) := by
  refine ⟨by decide, ⟨by decide, by decide⟩, ?_⟩
  exact (claim_C3_stale_session wParticipantAbcd wStaleZK "m1" 0 0 wStaleRecord
    "STATE_TRANSITION" "ffff" (by decide) (by decide) (by decide) (by decide) (by decide)).1

/-- C4: for every message with `MSG_TYPE = NO_OP`, `processMessage` deletes
the message znode and returns without invoking any state-model handler
(empty event trace) and without any other side effect on coordinator state
(every path outside the deleted subtree is unchanged). -/
theorem claim_C4_noop_delete (p : Participant) (zk : ZK) (msgID : String)
    (nowSec nowMilli : Int) (r : Record)
    (hget : zkGet zk (p.keys.message p.ParticipantID msgID) = some r)
    (htype : r.GetSimpleField "MSG_TYPE" = some "NO_OP") :
    processMessage p zk msgID nowSec nowMilli =
      some (zkDeleteTree zk (p.keys.message p.ParticipantID msgID), []) ∧
    ∀ q, (q == p.keys.message p.ParticipantID msgID ||
        strHasPre (p.keys.message p.ParticipantID msgID ++ "/") q) = false →
      zkGet (zkDeleteTree zk (p.keys.message p.ParticipantID msgID)) q = zkGet zk q := by
  refine ⟨?_, fun q hq => zkGet_deleteTree_ne zk _ q hq⟩
  simp [processMessage, connGetRecordFromPath, hget, htype]

theorem claim_C4_noop_delete_witness :
    zkGet wNoopZK (wParticipant.keys.message wParticipant.ParticipantID "m1") =
      some wNoopRecord ∧
    wNoopRecord.GetSimpleField "MSG_TYPE" = some "NO_OP" ∧
    processMessage wParticipant wNoopZK "m1" 0 0 =
      some (zkDeleteTree wNoopZK (wParticipant.keys.message wParticipant.ParticipantID "m1"),
        []) := by
  refine ⟨by decide, by decide, ?_⟩
  exact (claim_C4_noop_delete wParticipant wNoopZK "m1" 0 0 wNoopRecord
    (by decide) (by decide)).1

/-- C5: for every message whose `MSG_STATE` is not `NEW` under
case-insensitive comparison, `processMessage` returns without deleting the
message znode, without updating it, and without invoking any handler: the
store is returned unchanged and the event trace is empty. -/
theorem claim_C5_not_new_ignored (p : Participant) (zk : ZK) (msgID : String)
    (nowSec nowMilli : Int) (r : Record) (mt sid ms : String)
    (hget : zkGet zk (p.keys.message p.ParticipantID msgID) = some r)
    (htype : r.GetSimpleField "MSG_TYPE" = some mt)
    (hmt : mt ≠ "NO_OP")
    (hsid : r.GetSimpleField "TGT_SESSION_ID" = some sid)
    (hsess : sid = p.sessionID ∨ sid = "*")
    (hstate : r.GetSimpleField "MSG_STATE" = some ms)
    (hfold : eqFold ms "NEW" = false) :
    processMessage p zk msgID nowSec nowMilli = some (zk, []) := by
  rcases hsess with hsess | hsess <;>
    simp [processMessage, connGetRecordFromPath, hget, htype, hmt, hsid, hsess, hstate, hfold]

theorem claim_C5_not_new_ignored_witness :
    zkGet wReadZK (wParticipant.keys.message wParticipant.ParticipantID "m1") =
      some wReadRecord ∧
    eqFold "READ" "NEW" = false ∧
    processMessage wParticipant wReadZK "m1" 0 0 = some (wReadZK, []) := by
  refine ⟨by decide, by decide, ?_⟩
  exact claim_C5_not_new_ignored wParticipant wReadZK "m1" 0 0 wReadRecord
    "STATE_TRANSITION" "s1" "READ" (by decide) (by decide) (by decide) (by decide)
    (Or.inl (by decide)) (by decide) (by decide)

/-- C6: during `Connect`, with `allowParticipantAutoJoin = "true"` in the
cluster config and the participant's config path absent,
`ensureParticipantConfig` creates the participant config record with
`HELIX_HOST`, `HELIX_PORT`, `HELIX_ENABLED="true"` and the six empty
participant sub-paths (instance root, `CURRENTSTATES`, `ERRORS`,
`HEALTHREPORT`, `MESSAGES`, `STATUSUPDATES`); and when auto-join is not
enabled and the config is absent, `Connect` calls `Disconnect` and returns
`ErrEnsureParticipantConfig`. -/
theorem claim_C6_autojoin :
    (∀ (p : Participant) (zk : ZK) (cfg : Record),
      zkGet zk p.keys.clusterConfig = some cfg →
      cfg.GetSimpleField "allowParticipantAutoJoin" = some "true" →
      zkExists zk (p.keys.participantConfig p.ParticipantID) = false →
      zkExists zk (pathDir (p.keys.participantConfig p.ParticipantID)) = true →
      zkExists zk (p.keys.instanceKey p.ParticipantID) = false →
      zkExists zk (p.keys.currentStates p.ParticipantID) = false →
      zkExists zk (p.keys.errorsR p.ParticipantID) = false →
      zkExists zk (p.keys.healthReport p.ParticipantID) = false →
      zkExists zk (p.keys.messages p.ParticipantID) = false →
      zkExists zk (p.keys.statusUpdates p.ParticipantID) = false →
      ([p.keys.participantConfig p.ParticipantID, p.keys.instanceKey p.ParticipantID,
        p.keys.currentStates p.ParticipantID, p.keys.errorsR p.ParticipantID,
        p.keys.healthReport p.ParticipantID, p.keys.messages p.ParticipantID,
        p.keys.statusUpdates p.ParticipantID]).Nodup →
      ∃ zk',
        ensureParticipantConfig p zk = some (true, zk') ∧
        (zkGet zk' (p.keys.participantConfig p.ParticipantID)).map
          (fun r => (r.GetSimpleField "HELIX_HOST", r.GetSimpleField "HELIX_PORT",
            r.GetSimpleField "HELIX_ENABLED")) =
          some (some p.Host, some p.Port, some "true") ∧
        zkExists zk' (p.keys.instanceKey p.ParticipantID) = true ∧
        zkExists zk' (p.keys.currentStates p.ParticipantID) = true ∧
        zkExists zk' (p.keys.errorsR p.ParticipantID) = true ∧
        zkExists zk' (p.keys.healthReport p.ParticipantID) = true ∧
        zkExists zk' (p.keys.messages p.ParticipantID) = true ∧
        zkExists zk' (p.keys.statusUpdates p.ParticipantID) = true) ∧
    (∀ (p : Participant) (zk : ZK) (cfg : Record) (al : String),
      p.stateModels ≠ [] →
      IsClusterSetup zk p.ClusterID = true →
      zkGet zk p.keys.clusterConfig = some cfg →
      cfg.GetSimpleField "allowParticipantAutoJoin" = some al →
      strToLower al ≠ "true" →
      zkExists zk (p.keys.participantConfig p.ParticipantID) = false →
      Connect p zk = some ⟨zk, some GoErr.ensureParticipantConfig, true⟩) :=
  ⟨fun p zk cfg hcfg hallow h0 hpar h1 h2 h3 h4 h5 h6 hnd =>
    ensureParticipantConfig_creates p zk cfg hcfg hallow h0 hpar h1 h2 h3 h4 h5 h6 hnd,
   fun p zk cfg al hsm hsetup hcfg hallow hfalse h0 =>
    connect_autojoin_refused p zk cfg al hsm hsetup hcfg hallow hfalse h0⟩

theorem claim_C6_autojoin_witness :
    (∃ zk',
      ensureParticipantConfig wParticipant w6ZK = some (true, zk') ∧
      (zkGet zk' (wParticipant.keys.participantConfig wParticipant.ParticipantID)).map
        (fun r => (r.GetSimpleField "HELIX_HOST", r.GetSimpleField "HELIX_PORT",
          r.GetSimpleField "HELIX_ENABLED")) =
        some (some wParticipant.Host, some wParticipant.Port, some "true") ∧
      zkExists zk' (wParticipant.keys.instanceKey wParticipant.ParticipantID) = true ∧
      zkExists zk' (wParticipant.keys.currentStates wParticipant.ParticipantID) = true ∧
      zkExists zk' (wParticipant.keys.errorsR wParticipant.ParticipantID) = true ∧
      zkExists zk' (wParticipant.keys.healthReport wParticipant.ParticipantID) = true ∧
      zkExists zk' (wParticipant.keys.messages wParticipant.ParticipantID) = true ∧
      zkExists zk' (wParticipant.keys.statusUpdates wParticipant.ParticipantID) = true) ∧
    Connect wParticipant w6bZK = some ⟨w6bZK, some GoErr.ensureParticipantConfig, true⟩ :=
  ⟨claim_C6_autojoin.1 wParticipant w6ZK w6Cfg (by decide) (by decide) (by decide)
      (by decide) (by decide) (by decide) (by decide) (by decide) (by decide) (by decide)
      (by decide),
   claim_C6_autojoin.2 wParticipant w6bZK w6bCfg "false" (by decide) (by decide) (by decide)
      (by decide) (by decide) (by decide)⟩

/-- C7: in the dispatch loop — modelled as any interleaving of
snapshot-processing steps and housekeeping ticks over the
`messageProcessedTime` map, starting from the empty map — `processMessage`
runs at most once for a given message id within any 10-second window: two
`process` steps of the same id are always more than 10 seconds apart.
(An id present in the map can only be skipped, and the housekeeping tick
evicts only entries older than 10 seconds, as encoded in `runStep` and
`seenEvict`.) -/
theorem claim_C7_dedupe_window (trace : List LoopStep) (t0 : ℚ) (m : String)
    (i j : ℕ) (ti tj : ℚ)
    (h : (runTrace emptySeen t0 trace).isSome)
    (hij : i < j)
    (hi : trace.get? i = some (.process m ti))
    (hj : trace.get? j = some (.process m tj)) :
    tj - ti > 10 :=
  runTrace_two_process_gap trace emptySeen t0 h i j m ti tj hij hi hj

theorem claim_C7_dedupe_window_witness :
    (runTrace emptySeen 0 wTrace).isSome = true ∧
    wTrace.get? 0 = some (.process "a" 0) ∧
    wTrace.get? 3 = some (.process "a" 12) ∧
    (12 : ℚ) - 0 > 10 := by
  have h : (runTrace emptySeen 0 wTrace).isSome = true := by
    norm_num [runTrace, wTrace, runStep, LoopStep.time, emptySeen, seenRecord, seenEvict]
  exact ⟨h, rfl, rfl, claim_C7_dedupe_window wTrace 0 "a" 0 3 0 12 h (by norm_num) rfl rfl⟩

/-- C8 counterexample: the claim says `IsClusterSetup` returns true iff
every §6 layout path (excluding per-entity leaves) exists.  On a store
holding exactly the thirteen checked paths, `IsClusterSetup` returns true
although the layout paths `CONFIGS/CLUSTER` and `CONFIGS/RESOURCE` are
absent — the function never probes them. -/
theorem claim_C8_counterexample :
    IsClusterSetup c8ZK "C" = true ∧
    ((specLayoutPaths "C").all (zkExists c8ZK)) = false ∧
    zkExists c8ZK "/C/CONFIGS/RESOURCE" = false ∧
    zkExists c8ZK "/C/CONFIGS/CLUSTER" = false := by
  refine ⟨by decide, by decide, by decide, by decide⟩

/-- C8 (amended): `IsClusterSetup(cluster)` returns true iff the thirteen
well-known paths it probes all exist: the cluster root, `IDEALSTATES`,
`CONFIGS/PARTICIPANT`, `PROPERTYSTORE`, `LIVEINSTANCES`, `INSTANCES`,
`EXTERNALVIEW`, `STATEMODELDEFS`, `CONTROLLER` and its four children.  It
does not check the `CONFIGS/CLUSTER` and `CONFIGS/RESOURCE` paths of the
§6 layout. -/
theorem claim_C8_checked_paths (zk : ZK) (c : String) :
    IsClusterSetup zk c = true ↔
      ∀ q ∈ isClusterSetupCheckedPaths c, zkExists zk q = true := by
  simp [IsClusterSetup, isClusterSetupCheckedPaths, List.all_eq_true,
    KeyBuilder.cluster, KeyBuilder.idealStates, KeyBuilder.participantConfigs,
    KeyBuilder.propertyStore, KeyBuilder.liveInstances, KeyBuilder.instances,
    KeyBuilder.externalView, KeyBuilder.stateModels, KeyBuilder.controller,
    KeyBuilder.controllerErrors, KeyBuilder.controllerHistory,
    KeyBuilder.controllerMessages, KeyBuilder.controllerStatusUpdates]

/-- C9: the claim expects `GetControllerMessages` to return one record for
every successfully-read child of `CONTROLLER/MESSAGES` and omit failed
reads.  On a store with one child `cm1` whose read succeeds, the function
returns the empty list: the source appends only when the read **fails**
(`if err != nil`, spectator source), i.e. the error check is inverted. -/
theorem claim_C9_successful_reads_omitted :
    zkChildren c9ZK c9Keys.controllerMessages = ["cm1"] ∧
    connGetRecordFromPath c9ZK (c9Keys.controllerMessage "cm1") = some c9MsgRecord ∧
    GetControllerMessages c9Keys c9ZK = [] := by
  refine ⟨by decide, by decide, by decide⟩

/-- C10: for every message whose `TGT_SESSION_ID` is the wildcard `"*"`
(which passes the session check of `processMessage`), `postHandleMessage`
returns with the store unchanged — `"*"` compares unequal to the concrete
session id, so the early return fires and neither the partition-key
removal nor the `CURRENT_STATE` write happens. -/
theorem claim_C10_wildcard_no_mutation (p : Participant) (zk : ZK) (message : Record)
    (ts pn : String)
    (hts : message.GetSimpleField "TGT_SESSION_ID" = some "*")
    (hto : message.GetSimpleField "TO_STATE" = some ts)
    (hpn : message.GetSimpleField "PARTITION_NAME" = some pn)
    (hsess : p.sessionID ≠ "*") :
    postHandleMessage p zk message = some zk := by
  have : ("*" : String) ≠ p.sessionID := fun e => hsess e.symm
  simp [postHandleMessage, hts, hto, hpn, this]

theorem claim_C10_wildcard_no_mutation_witness :
    wWildcardRecord.GetSimpleField "TGT_SESSION_ID" = some "*" ∧
    wParticipant.sessionID ≠ "*" ∧
    postHandleMessage wParticipant wWildcardZK wWildcardRecord = some wWildcardZK := by
  refine ⟨by decide, by decide, ?_⟩
  exact claim_C10_wildcard_no_mutation wParticipant wWildcardZK wWildcardRecord
    "ONLINE" "r_0" (by decide) (by decide) (by decide) (by decide)

end Gohelix
